import Mathlib

/-!
Verification of the translation-resolution pipeline of `src/server.js`
(the LINE webhook translator: Gemini primary, Google Translate fallback,
result filtering, reply formatting).

The JavaScript code is embedded shallowly:

* JS strings are Lean `String`s; the JS builtins used by the code
  (`trim`, `toLowerCase`, `startsWith`, `includes`, the two regex
  replaces) are re-implemented below over `List Char`, faithful to their
  behaviour on the code points used by this program.
* `JSON.parse` is an external library function; it is a parameter
  `jparse : String → Option Jv` of the model, where `Jv` models the JSON
  values the code inspects (strings, objects, null).  `none` models a
  parse exception.
* Each network backend (Gemini chat, Google detect, Google translate) is
  modelled by an environment field describing what the call does on this
  request: raise, or produce a payload.  This makes every function total:
  the `try`/`catch` structure of the source becomes `Option`/`match`.
* The Unicode character class `\p{L}\p{N}` of the normalisation regex is
  an external predicate and is a parameter `isWordChar` of the model.
-/

set_option maxRecDepth 10000

namespace LineTranslate

/-- Configured target languages, `server.js` line 30. -/
def targetLangs : List String := ["zh-TW", "en", "id"]

/-- Boolean test that `pre` is a leading segment of `l` (models the JS
`String.prototype.startsWith` test, over char lists). -/
def leadsList : List Char → List Char → Bool
  | [], _ => true
  | _ :: _, [] => false
  | a :: as, b :: bs => a == b && leadsList as bs

/-- Model of `s.startsWith(pre)`. -/
def jsStartsWith (s pre : String) : Bool := leadsList pre.data s.data

/-- Boolean test that `pat` occurs as a contiguous segment of the list. -/
def containsList (pat : List Char) : List Char → Bool
  | [] => leadsList pat []
  | c :: cs => leadsList pat (c :: cs) || containsList pat cs

/-- Model of `s.includes(pat)`. -/
def strIncludes (s pat : String) : Bool := containsList pat.data s.data

/-- Model of `s.toLowerCase()` (ASCII case folding; agrees with JS on the
language codes compared by this program). -/
def jsLower (s : String) : String := String.mk (s.data.map Char.toLower)

/-- Model of `s.trim()`. -/
def jsTrim (s : String) : String :=
  String.mk (((s.data.dropWhile Char.isWhitespace).reverse.dropWhile Char.isWhitespace).reverse)

/-- Model of the normalisation at `server.js` line 226:
`str.toLowerCase().replace(/[^\p{L}\p{N}]/gu, "")`, with the Unicode
word-character class passed in as `iw`. -/
def normalize (iw : Char → Bool) (s : String) : String :=
  String.mk ((jsLower s).data.filter iw)

/-- One left-to-right pass of `raw.replace(/```json|```/g, "")`
(`server.js` line 78): at each position the longer alternative
is tried first, matches are removed, other characters kept.  The fuel is
the length of the list; each step consumes at least one character, so
the fuel never runs out. -/
def stripCodeFenceAux : Nat → List Char → List Char
  | 0, cs => cs
  | _ + 1, [] => []
  | n + 1, c :: rest =>
    if leadsList ("```json".data) (c :: rest) then stripCodeFenceAux n (rest.drop 6)
    else if leadsList ("```".data) (c :: rest) then stripCodeFenceAux n (rest.drop 2)
    else c :: stripCodeFenceAux n rest

/-- Model of `raw.replace(/```json|```/g, "")`. -/
def stripCodeFence (s : String) : String := String.mk (stripCodeFenceAux s.data.length s.data)

/-- Opening brace character. -/
def lbrace : Char := '\x7b'

/-- Closing brace character. -/
def rbrace : Char := '\x7d'

/-- Index of the first element satisfying `p`. -/
def firstIdxOf (p : Char → Bool) : List Char → Option Nat
  | [] => none
  | c :: cs => if p c then some 0 else (firstIdxOf p cs).map (· + 1)

/-- Index of the last element satisfying `p`. -/
def lastIdxOf (p : Char → Bool) (l : List Char) : Option Nat :=
  (firstIdxOf p l.reverse).map (fun k => l.length - 1 - k)

/-- Model of `raw.match(/\x7b[\s\S]*\x7d/)` and taking `match[0]`
(`server.js` line 82): the greedy regex matches from the first opening
brace to the last closing brace after it, or fails. -/
def braceSubstring (raw : String) : Option String :=
  match firstIdxOf (fun c => c == lbrace) raw.data, lastIdxOf (fun c => c == rbrace) raw.data with
  | some i, some j =>
      if i < j then some (String.mk ((raw.data.drop i).take (j - i + 1))) else none
  | _, _ => none

/-- JSON values as far as this program inspects them: strings, objects
and null.  (Numbers, booleans and arrays never influence the modelled
control flow: a non-string field value is treated by the code exactly
like a missing one at every site modelled here.) -/
inductive Jv where
  | jstr : String → Jv
  | jobj : List (String × Jv) → Jv
  | jnull : Jv

/-- Association-list field lookup inside a JSON object. -/
def getFieldIn : List (String × Jv) → String → Option Jv
  | [], _ => none
  | (k, v) :: rest, key => if k == key then some v else getFieldIn rest key

/-- Model of JS property access `v[key]`; `none` models `undefined`. -/
def getField : Jv → String → Option Jv
  | Jv.jobj fields, key => getFieldIn fields key
  | _, _ => none

/-- JS truthiness of a modelled JSON value. -/
def jvTruthy : Jv → Bool
  | Jv.jstr s => s != ""
  | Jv.jobj _ => true
  | Jv.jnull => false

/-- Model of `parsedJson.detected_lang || null` (`server.js` line 110):
a non-empty string survives, everything falsy becomes null.  Non-string
truthy values are outside the modelled value space (see `Jv`). -/
def jvDetectedLang (v : Jv) : Option String :=
  match getField v "detected_lang" with
  | some (Jv.jstr s) => if s == "" then none else some s
  | _ => none

/-- Per-language extraction from the parsed `translations` object,
`server.js` lines 97-99: the value must be a truthy string
(`t && typeof t === 'string'`), and is then trimmed. -/
def geminiLangValue (tv : Jv) (lang : String) : Option String :=
  match getField tv lang with
  | some (Jv.jstr s) => if s == "" then none else some (jsTrim s)
  | _ => none

/-- Behaviour of the Gemini chat call on this request: raise, or return
the raw response text. -/
inductive GeminiBehavior where
  | throws : GeminiBehavior
  | returns : String → GeminiBehavior

/-- Behaviour of the Google detect call: raise, or return the (optional)
`data.data?.detections?.[0]?.[0]?.language` field. -/
inductive DetectBehavior where
  | throws : DetectBehavior
  | returns : Option String → DetectBehavior

/-- Behaviour of one Google translate call: raise, or return the
(optional) `data.data?.translations?.[0]?.translatedText` field. -/
inductive GFetchResult where
  | throws : GFetchResult
  | returns : Option String → GFetchResult

/-- The external world of one `handleEvent` run: configuration plus the
behaviour of every backend call the pipeline may make. -/
structure Env where
  gemini : GeminiBehavior
  jparse : String → Option Jv
  hasGoogleKey : Bool
  detect : DetectBehavior
  gfetch : String → GFetchResult
  isWordChar : Char → Bool

/-- An inbound LINE event, reduced to the fields `handleEvent` reads. -/
structure Event where
  isTextMessage : Bool
  text : String
  replyToken : String

/-- Return value of `translateWithGemini`, `server.js` lines 108-112 and
119. -/
structure GeminiOutcome where
  success : Bool
  detectedLang : Option String
  translations : List (String × String)

/-- The failure object built in the catch block, `server.js`
lines 117-119. -/
def geminiErrorOutcome : GeminiOutcome :=
  { success := false
    detectedLang := none
    translations := targetLangs.map (fun l => (l, "(Gemini 錯誤)")) }

/-- The JSON-extraction logic of `translateWithGemini`, `server.js`
lines 75-88: strip code-fence markers, trim, parse; on parse failure,
extract the brace-delimited substring of the original text and parse
that; if that also fails the chain fails. -/
def parseGeminiResponse (jp : String → Option Jv) (raw : String) : Option Jv :=
  match jp (jsTrim (stripCodeFence raw)) with
  | some v => some v
  | none =>
    match braceSubstring raw with
    | some sub => jp sub
    | none => none

/-- Model of `translateWithGemini`, `server.js` lines 57-121.  Every
throw site (network call, parse chain, missing `translations` field, no
valid per-language value) lands in the catch block and produces
`geminiErrorOutcome`. -/
def translateWithGemini (env : Env) (text : String) : GeminiOutcome :=
  match env.gemini with
  | GeminiBehavior.throws => geminiErrorOutcome
  | GeminiBehavior.returns raw =>
    match parseGeminiResponse env.jparse raw with
    | none => geminiErrorOutcome
    | some v =>
      match getField v "translations" with
      | none => geminiErrorOutcome
      | some tv =>
        if jvTruthy tv then
          if targetLangs.any (fun lang => (geminiLangValue tv lang).isSome) then
            { success := true
              detectedLang := jvDetectedLang v
              translations := targetLangs.map (fun lang =>
                (lang, match geminiLangValue tv lang with
                       | some s => s
                       | none => "(Gemini 翻譯失敗)")) }
          else geminiErrorOutcome
        else geminiErrorOutcome

/-- Whether the backend response yielded a valid (truthy string) value
for `lang`, i.e. the condition of `server.js` line 98 in context. -/
def geminiYields (env : Env) (lang : String) : Bool :=
  match env.gemini with
  | GeminiBehavior.throws => false
  | GeminiBehavior.returns raw =>
    match parseGeminiResponse env.jparse raw with
    | none => false
    | some v =>
      match getField v "translations" with
      | none => false
      | some tv => jvTruthy tv && (geminiLangValue tv lang).isSome

/-- The disjunction of every throw site inside `translateWithGemini`:
network exception, unparseable response, missing/falsy `translations`
field, or no valid per-language value. -/
def geminiFailed (env : Env) : Bool :=
  match env.gemini with
  | GeminiBehavior.throws => true
  | GeminiBehavior.returns raw =>
    match parseGeminiResponse env.jparse raw with
    | none => true
    | some v =>
      match getField v "translations" with
      | none => true
      | some tv => !jvTruthy tv || !(targetLangs.any (fun lang => (geminiLangValue tv lang).isSome))

/-- Model of `detectLanguageGoogle`, `server.js` lines 126-141: without
an API key it returns null without fetching; a fetch exception returns
null; `zh`/`zh-CN` are normalised to `zh-TW`. -/
def detectLanguageGoogle (env : Env) : Option String :=
  if env.hasGoogleKey then
    match env.detect with
    | DetectBehavior.throws => none
    | DetectBehavior.returns l =>
      match l with
      | some lang => if lang == "zh" || lang == "zh-CN" then some "zh-TW" else some lang
      | none => none
  else none

/-- The marker filled into every slot when the fallback key is missing,
`server.js` line 147. -/
def unsetMarker : String := "(備援未設定)"

/-- One fetched slot of `translateWithGoogle`, `server.js` lines 156-166:
the produced string, and `some lang` to record that a backend call was
made for this language. -/
def googleFetchSlot (env : Env) (lang : String) : String × Option String :=
  match env.gfetch lang with
  | GFetchResult.throws => ("(Google API 錯誤)", some lang)
  | GFetchResult.returns none => ("(Google 失敗)", some lang)
  | GFetchResult.returns (some s) => (if s == "" then "(Google 失敗)" else s, some lang)

/-- One slot of the `translateWithGoogle` loop, `server.js` lines
150-167: if the source language is known (truthy) and the target
language starts with it, the original text is written without a backend
call; otherwise the slot is fetched. -/
def googleSlot (env : Env) (text : String) (sourceLang : Option String) (lang : String) :
    String × Option String :=
  match sourceLang with
  | some s =>
    if s != "" && jsStartsWith lang s then (text, none)
    else googleFetchSlot env lang
  | none => googleFetchSlot env lang

/-- Return value of `translateWithGoogle`: the per-language outputs, and
the list of languages for which a backend call was issued. -/
structure GoogleResult where
  outputs : List (String × String)
  fetched : List String

/-- Model of `translateWithGoogle`, `server.js` lines 146-169. -/
def translateWithGoogle (env : Env) (text : String) (sourceLang : Option String) : GoogleResult :=
  if env.hasGoogleKey then
    { outputs := targetLangs.map (fun l => (l, (googleSlot env text sourceLang l).1))
      fetched := targetLangs.filterMap (fun l => (googleSlot env text sourceLang l).2) }
  else
    { outputs := targetLangs.map (fun l => (l, unsetMarker))
      fetched := [] }

/-- Filter step A, `server.js` line 214: a result is invalid if it is
empty or carries one of the in-band failure sentinels. -/
def failedResult (r : String) : Bool :=
  r == "" || strIncludes r "(失敗)" || strIncludes r "(錯誤)"

/-- Filter step B, `server.js` lines 217-222: drop a target language that
is the (truthy) source language, by lower-cased prefix test, with the
special case for `zh`/`zh-cn` sources against the `zh-TW` target. -/
def sameLangDrop (sourceLang : Option String) (lang : String) : Bool :=
  match sourceLang with
  | none => false
  | some sl =>
    if sl == "" then false
    else
      jsStartsWith (jsLower lang) (jsLower sl) ||
        ((jsLower sl == "zh" || jsLower sl == "zh-cn") && jsLower lang == "zh-tw")

/-- Filter step C, `server.js` lines 226-232: the normalised result
equals the normalised original input. -/
def echoDrop (iw : Char → Bool) (text result : String) : Bool :=
  normalize iw text == normalize iw result

/-- The filter callback of `server.js` lines 210-235: a language is kept
when its result exists and passes steps A, B and C in order. -/
def keepLang (iw : Char → Bool) (text : String) (sourceLang : Option String)
    (result? : Option String) (lang : String) : Bool :=
  match result? with
  | none => false
  | some r => !failedResult r && !sameLangDrop sourceLang lang && !echoDrop iw text r

/-- Flag decoration, `server.js` lines 31-35 and 236. -/
def flagMap (lang : String) : String :=
  if lang == "zh-TW" then "🇹🇼"
  else if lang == "en" then "🇺🇸"
  else if lang == "id" then "🇮🇩"
  else "🌐"

/-- Association lookup on the per-language translation map. -/
def lookupStr : List (String × String) → String → Option String
  | [], _ => none
  | (k, v) :: rest, key => if k == key then some v else lookupStr rest key

/-- The filter-map-join of `server.js` lines 209-237. -/
def buildReplyLines (iw : Char → Bool) (text : String) (sourceLang : Option String)
    (translations : List (String × String)) : String :=
  String.intercalate "\n\n"
    ((targetLangs.filter (fun lang => keepLang iw text sourceLang (lookupStr translations lang) lang)).map
      (fun lang => flagMap lang ++ " " ++ ((lookupStr translations lang).getD "")))

/-- The reply text computed by `handleEvent` for trimmed text `text`:
Gemini first; on failure, Google detection then Google translation
(`server.js` lines 193-237). -/
def eventReplyLines (env : Env) (text : String) : String :=
  if (translateWithGemini env text).success then
    buildReplyLines env.isWordChar text (translateWithGemini env text).detectedLang
      (translateWithGemini env text).translations
  else
    buildReplyLines env.isWordChar text (detectLanguageGoogle env)
      (translateWithGoogle env text (detectLanguageGoogle env)).outputs

/-- Observable outcome of one `handleEvent` run: the dispatched reply (if
any; the single reply call site of `server.js` line 246 makes more than
one impossible), and which backend calls were made. -/
structure HandleResult where
  reply : Option String
  geminiCalled : Bool
  fallbackInvoked : Bool
  detectFetched : Bool
  googleFetched : List String

/-- Model of `handleEvent`, `server.js` lines 183-247.  Non-text events
return immediately.  The text is trimmed and `translateWithGemini` is
always called on it; the fallback runs exactly when Gemini reports
failure; the reply is sent unless the built reply string is empty
(line 240). -/
def handleEvent (env : Env) (ev : Event) : HandleResult :=
  if ev.isTextMessage then
    { reply :=
        if eventReplyLines env (jsTrim ev.text) == "" then none
        else some (eventReplyLines env (jsTrim ev.text))
      geminiCalled := true
      fallbackInvoked := !(translateWithGemini env (jsTrim ev.text)).success
      detectFetched := !(translateWithGemini env (jsTrim ev.text)).success && env.hasGoogleKey
      googleFetched :=
        if (translateWithGemini env (jsTrim ev.text)).success then []
        else (translateWithGoogle env (jsTrim ev.text) (detectLanguageGoogle env)).fetched }
  else
    { reply := none
      geminiCalled := false
      fallbackInvoked := false
      detectFetched := false
      googleFetched := [] }

/-- Modelled from the spec (section 4.2 step 3), for comparison with the
code: an ordered chain where a DIRECT parse of the raw text is attempted
first, then the fence-stripped text, then the brace-extracted substring;
first success wins. -/
def specOrderedParseChain (jp : String → Option Jv) (raw : String) : Option Jv :=
  match jp raw with
  | some v => some v
  | none =>
    match jp (jsTrim (stripCodeFence raw)) with
    | some v => some v
    | none =>
      match braceSubstring raw with
      | some sub => jp sub
      | none => none

/-! Concrete environments used by witnesses and counterexamples.  Each
`jparse` below agrees with real `JSON.parse` on every string at which it
is evaluated in a proof. -/

/-- A well-formed Gemini response whose three translations all echo the
input `"Hello"` and whose detected language is `"en"`. -/
def raw1 : String := "\x7b\"detected_lang\":\"en\",\"translations\":\x7b\"zh-TW\":\"Hello\",\"en\":\"Hello\",\"id\":\"Hello\"\x7d\x7d"

/-- The JSON value of `raw1`. -/
def v1 : Jv :=
  Jv.jobj [("detected_lang", Jv.jstr "en"),
           ("translations", Jv.jobj [("zh-TW", Jv.jstr "Hello"), ("en", Jv.jstr "Hello"),
                                     ("id", Jv.jstr "Hello")])]

/-- A `JSON.parse` oracle defined at `raw1`. -/
def jparse1 : String → Option Jv := fun s => if s == raw1 then some v1 else none

/-- Environment in which Gemini answers `raw1` and no Google key is set. -/
def env1 : Env :=
  { gemini := GeminiBehavior.returns raw1
    jparse := jparse1
    hasGoogleKey := false
    detect := DetectBehavior.returns none
    gfetch := fun _ => GFetchResult.throws
    isWordChar := Char.isAlphanum }

/-- A text-message event carrying `"Hello"`. -/
def ev1 : Event := { isTextMessage := true, text := "Hello", replyToken := "tok1" }

/-- A text-message event carrying a single space (whitespace-only). -/
def ev2 : Event := { isTextMessage := true, text := " ", replyToken := "tok2" }

/-- Environment in which every backend throws and no Google key is set. -/
def env4 : Env :=
  { gemini := GeminiBehavior.throws
    jparse := fun _ => none
    hasGoogleKey := false
    detect := DetectBehavior.returns none
    gfetch := fun _ => GFetchResult.throws
    isWordChar := Char.isAlphanum }

/-- Environment in which Gemini throws, a Google key is set, and every
Google translation call returns `"Bonjour"`. -/
def env8 : Env :=
  { gemini := GeminiBehavior.throws
    jparse := fun _ => none
    hasGoogleKey := true
    detect := DetectBehavior.returns none
    gfetch := fun _ => GFetchResult.returns (some "Bonjour")
    isWordChar := Char.isAlphanum }

/-- A raw Gemini response that is already valid JSON but contains a
code-fence marker inside a string value. -/
def raw5 : String := "\x7b\"translations\":\x7b\"en\":\"a```b\"\x7d\x7d"

/-- The fence-stripped form of `raw5`, also valid JSON. -/
def raw5c : String := "\x7b\"translations\":\x7b\"en\":\"ab\"\x7d\x7d"

/-- The JSON value of `raw5` under real `JSON.parse`. -/
def v5a : Jv := Jv.jobj [("translations", Jv.jobj [("en", Jv.jstr "a```b")])]

/-- The JSON value of `raw5c` under real `JSON.parse`. -/
def v5b : Jv := Jv.jobj [("translations", Jv.jobj [("en", Jv.jstr "ab")])]

/-- A `JSON.parse` oracle defined at `raw5` and `raw5c`, agreeing with
real `JSON.parse` there. -/
def jparse5 : String → Option Jv :=
  fun s => if s == raw5 then some v5a else if s == raw5c then some v5b else none

/-- Projection reading the `translations.en` string out of an optional
parse result; used to tell two parse results apart. -/
def enValue : Option Jv → Option String
  | some v =>
    match getField v "translations" with
    | some tv =>
      match getField tv "en" with
      | some (Jv.jstr s) => some s
      | _ => none
    | _ => none
  | none => none

/-! Claim C1. -/

/-- C1, counterexample: it is NOT the case that every text-message event
with non-empty trimmed text gets exactly one reply and every empty one
gets zero.  In `env1` the backend succeeds but every translation echoes
the input `"Hello"`, so the filter removes all three languages and no
reply is dispatched despite the non-empty input. -/
theorem c1_counterexample :
    ¬ (∀ (env : Env) (ev : Event), ev.isTextMessage = true →
        (jsTrim ev.text ≠ "" → (handleEvent env ev).reply.isSome = true) ∧
        (jsTrim ev.text = "" → (handleEvent env ev).reply = none)) := by
  intro h
  have h1 := (h env1 ev1 rfl).1 (by decide)
  exact absurd h1 (by decide)

/-- C1, amended: `handleEvent` dispatches at most one reply (there is a
single reply site), and it dispatches exactly one reply iff the
filtered-and-formatted reply string is non-empty — regardless of whether
the trimmed input text is empty. -/
theorem c1_reply_iff_nonempty_lines (env : Env) (ev : Event) (h : ev.isTextMessage = true) :
    (handleEvent env ev).reply.isSome = true ↔ eventReplyLines env (jsTrim ev.text) ≠ "" := by
  unfold handleEvent
  rw [h]
  simp only [if_true]
  by_cases hl : eventReplyLines env (jsTrim ev.text) == ""
  · simp only [hl, if_true, Option.isSome_none]
    simp only [beq_iff_eq] at hl
    simp [hl]
  · simp only [hl, if_false, Option.isSome_some]
    simp only [beq_iff_eq] at hl
    simp [hl]

/-- C1, witness for `c1_reply_iff_nonempty_lines` at `env1`, `ev1`. -/
theorem c1_witness :
    (handleEvent env1 ev1).reply.isSome = true ↔ eventReplyLines env1 (jsTrim ev1.text) ≠ "" :=
  c1_reply_iff_nonempty_lines env1 ev1 rfl

/-! Claim C2. -/

/-- C2, counterexample: it is NOT the case that an empty/whitespace-only
input is a terminal no-op.  For the whitespace event `ev2` in `env1` the
primary translator IS called, and a reply IS dispatched (the backend's
answer survives the echo filter because the normalised empty input
differs from the normalised answer). -/
theorem c2_counterexample :
    ¬ (∀ (env : Env) (ev : Event), ev.isTextMessage = true → jsTrim ev.text = "" →
        (handleEvent env ev).geminiCalled = false ∧
        (handleEvent env ev).detectFetched = false ∧
        (handleEvent env ev).googleFetched = [] ∧
        (handleEvent env ev).reply = none) := by
  intro h
  have h2 := h env1 ev2 rfl (by decide)
  exact absurd h2.1 (by decide)

/-- C2, amended: the code has no emptiness guard — for EVERY text-message
event, including one whose trimmed text is empty, `handleEvent` invokes
the primary translator; whether a reply is sent is governed solely by
the filter outcome. -/
theorem c2_primary_always_called (env : Env) (ev : Event) (h : ev.isTextMessage = true) :
    (handleEvent env ev).geminiCalled = true := by
  unfold handleEvent
  rw [h]
  simp

/-- C2, witness for `c2_primary_always_called` at the whitespace-only
event `ev2`. -/
theorem c2_witness : (handleEvent env1 ev2).geminiCalled = true :=
  c2_primary_always_called env1 ev2 rfl

/-! Claim C3. -/

/-- C3: the primary outcome reports success exactly when at least one
requested target language yielded a valid (truthy string) value in the
parsed response, and the orchestrator invokes the Google fallback
exactly when the primary outcome is a failure. -/
theorem c3_success_iff_one_lang_and_fallback (env : Env) (text : String) (ev : Event)
    (hmsg : ev.isTextMessage = true) :
    ((translateWithGemini env text).success = targetLangs.any (fun lang => geminiYields env lang)) ∧
    ((handleEvent env ev).fallbackInvoked = !(translateWithGemini env (jsTrim ev.text)).success) := by
  constructor
  · cases hg : env.gemini with
    | throws => simp [translateWithGemini, geminiYields, hg, geminiErrorOutcome, targetLangs]
    | returns raw =>
      cases hp : parseGeminiResponse env.jparse raw with
      | none => simp [translateWithGemini, geminiYields, hg, hp, geminiErrorOutcome, targetLangs]
      | some v =>
        cases ht : getField v "translations" with
        | none => simp [translateWithGemini, geminiYields, hg, hp, ht, geminiErrorOutcome, targetLangs]
        | some tv =>
          cases htr : jvTruthy tv with
          | false =>
            simp [translateWithGemini, geminiYields, hg, hp, ht, htr, geminiErrorOutcome, targetLangs]
          | true =>
            cases hos : targetLangs.any (fun lang => (geminiLangValue tv lang).isSome) with
            | false =>
              simp only [translateWithGemini, geminiYields, hg, hp, ht, htr, if_true]
              rw [hos]
              simp only [if_false, Bool.true_and]
              rw [hos]
              simp [geminiErrorOutcome]
            | true =>
              simp only [translateWithGemini, geminiYields, hg, hp, ht, htr, if_true]
              rw [hos]
              simp only [if_true, Bool.true_and]
              rw [hos]
  · unfold handleEvent
    rw [hmsg]
    simp

/-- C3, witness at `env1`, `"Hello"`, `ev1`. -/
theorem c3_witness :
    ((translateWithGemini env1 "Hello").success =
      targetLangs.any (fun lang => geminiYields env1 lang)) ∧
    ((handleEvent env1 ev1).fallbackInvoked = !(translateWithGemini env1 (jsTrim ev1.text)).success) :=
  c3_success_iff_one_lang_and_fallback env1 "Hello" ev1 rfl

/-! Claim C4. -/

/-- C4: every throw site of the primary translator — network exception,
unparseable response, missing `translations` field, or no valid
per-language value — is caught inside it and degrades to the failure
outcome that covers every target language with the error marker; the
translator (and hence `handleEvent`, which is a total function of its
environment in this model) never propagates an exception. -/
theorem c4_failure_degrades (env : Env) (text : String) (h : geminiFailed env = true) :
    translateWithGemini env text = geminiErrorOutcome ∧
    geminiErrorOutcome.success = false ∧
    geminiErrorOutcome.translations = targetLangs.map (fun l => (l, "(Gemini 錯誤)")) := by
  refine ⟨?_, rfl, rfl⟩
  unfold geminiFailed at h
  split at h
  · rename_i hg
    simp [translateWithGemini, hg]
  · rename_i raw hg
    split at h
    · rename_i hp
      simp [translateWithGemini, hg, hp]
    · rename_i v hp
      split at h
      · rename_i ht
        simp [translateWithGemini, hg, hp, ht]
      · rename_i tv ht
        cases htr : jvTruthy tv with
        | false => simp [translateWithGemini, hg, hp, ht, htr]
        | true =>
          rw [htr] at h
          simp only [Bool.not_true, Bool.false_or, Bool.not_eq_true'] at h
          simp [translateWithGemini, hg, hp, ht, htr, h]

/-- C4, witness: in `env4` the network call throws, and the outcome is
the total-failure object. -/
theorem c4_witness :
    translateWithGemini env4 "Hi" = geminiErrorOutcome ∧
    geminiErrorOutcome.success = false ∧
    geminiErrorOutcome.translations = targetLangs.map (fun l => (l, "(Gemini 錯誤)")) :=
  c4_failure_degrades env4 "Hi" rfl

/-! Claim C5. -/

/-- C5, counterexample: the code's parse chain is NOT the spec's
"direct parse first, then strip wrappers, then brace-extract" chain.
On `raw5` — valid JSON whose `en` value contains a code fence marker —
the spec chain returns the direct parse (`en = "a```b"`), while the code
strips the fences BEFORE the first parse attempt and returns
`en = "ab"`. -/
theorem c5_counterexample :
    ¬ (∀ (jp : String → Option Jv) (raw : String),
        parseGeminiResponse jp raw = specOrderedParseChain jp raw) := by
  intro h
  have h2 := congrArg enValue (h jparse5 raw5)
  rw [show enValue (parseGeminiResponse jparse5 raw5) = some "ab" from rfl] at h2
  rw [show enValue (specOrderedParseChain jparse5 raw5) = some "a```b" from rfl] at h2
  exact absurd h2 (by decide)

/-- C5, amended: the chain has two stages, not three, and the first is
not a direct parse: the translator always strips fenced-code markers and
trims before the first parse attempt; if that fails it re-parses the
brace-delimited substring of the ORIGINAL raw text; if both stages fail
the outcome is the total failure object. -/
theorem c5_strip_first_chain (jp : String → Option Jv) (raw : String) (env : Env) (text : String) :
    (∀ v : Jv, jp (jsTrim (stripCodeFence raw)) = some v → parseGeminiResponse jp raw = some v) ∧
    (jp (jsTrim (stripCodeFence raw)) = none →
      parseGeminiResponse jp raw = (braceSubstring raw).bind jp) ∧
    (env.gemini = GeminiBehavior.returns raw → parseGeminiResponse env.jparse raw = none →
      translateWithGemini env text = geminiErrorOutcome) := by
  refine ⟨?_, ?_, ?_⟩
  · intro v hv
    unfold parseGeminiResponse
    rw [hv]
  · intro hn
    unfold parseGeminiResponse
    rw [hn]
    cases braceSubstring raw <;> simp
  · intro hg hp
    simp [translateWithGemini, hg, hp]

/-- C5, witness for the first stage of `c5_strip_first_chain`: on the
clean response `raw5c` the strip-then-parse stage succeeds and wins. -/
theorem c5_witness : parseGeminiResponse jparse5 raw5c = some v5b :=
  (c5_strip_first_chain jparse5 raw5c env1 "t").1 v5b rfl

/-! Claim C6. -/

/-- Every list is a leading segment of itself. -/
theorem leadsList_self (l : List Char) : leadsList l l = true := by
  induction l with
  | nil => rfl
  | cons a as ih => simp [leadsList, ih]

/-- C6, counterexample: the filter does NOT drop the `zh-TW` target for
every `zh`-family source hint.  For the hint `"zh-Hans"` — a `zh-*`
variant that is neither `"zh"` nor `"zh-CN"` — neither the prefix test
nor the special case fires, and the `zh-TW` result is kept. -/
theorem c6_counterexample :
    ¬ (∀ (iw : Char → Bool) (text sl r : String), sl ≠ "" →
        jsStartsWith (jsLower sl) "zh" = true →
        keepLang iw text (some sl) (some r) "zh-TW" = false) := by
  intro h
  have h2 := h Char.isAlphanum "hello" "zh-Hans" "bonjour" (by decide) (by decide)
  exact absurd h2 (by decide)

/-- C6, amended: the filter drops a target whose lower-cased code starts
with the lower-cased (truthy) hint; the Chinese special case drops
`zh-TW` exactly for hints whose lower-cased form is `"zh"` or `"zh-cn"`
(other `zh-*` hints are NOT specially dropped); in particular a hint
equal to a target up to case is always dropped, so a detected source
equal to a configured target never survives the filter. -/
theorem c6_same_language_drop (iw : Char → Bool) (text sl r lang : String) (hsl : sl ≠ "") :
    (jsStartsWith (jsLower lang) (jsLower sl) = true →
      keepLang iw text (some sl) (some r) lang = false) ∧
    ((jsLower sl = "zh" ∨ jsLower sl = "zh-cn") →
      keepLang iw text (some sl) (some r) "zh-TW" = false) ∧
    (jsLower sl = jsLower lang → keepLang iw text (some sl) (some r) lang = false) := by
  have hbeq : (sl == "") = false := by simp [hsl]
  refine ⟨?_, ?_, ?_⟩
  · intro hpre
    simp [keepLang, sameLangDrop, hbeq, hpre]
  · intro hzh
    have hlow : jsLower "zh-TW" = "zh-tw" := rfl
    rcases hzh with hzh | hzh
    · have : jsStartsWith (jsLower "zh-TW") (jsLower sl) = true := by
        rw [hzh, hlow]; decide
      simp [keepLang, sameLangDrop, hbeq, this]
    · simp [keepLang, sameLangDrop, hbeq, hzh, hlow]
  · intro heq
    have : jsStartsWith (jsLower lang) (jsLower sl) = true := by
      rw [heq]
      exact leadsList_self (jsLower lang).data
    simp [keepLang, sameLangDrop, hbeq, this]

/-- C6, witness: the hint `"en"` (as detected for English input) drops
the `"en"` target. -/
theorem c6_witness :
    (jsStartsWith (jsLower "en") (jsLower "en") = true →
      keepLang Char.isAlphanum "Hello" (some "en") (some "Hello world") "en" = false) ∧
    ((jsLower "en" = "zh" ∨ jsLower "en" = "zh-cn") →
      keepLang Char.isAlphanum "Hello" (some "en") (some "Hello world") "zh-TW" = false) ∧
    (jsLower "en" = jsLower "en" →
      keepLang Char.isAlphanum "Hello" (some "en") (some "Hello world") "en" = false) :=
  c6_same_language_drop Char.isAlphanum "Hello" "en" "Hello world" "en" (by decide)

/-! Claim C7. -/

/-- C7: for a result that passes the validity check (step A) and the
same-language check (step B), the filter keeps it exactly when its
normalised form differs from the normalised original input. -/
theorem c7_echo_filter (iw : Char → Bool) (text : String) (sl : Option String) (r lang : String)
    (hA : failedResult r = false) (hB : sameLangDrop sl lang = false) :
    keepLang iw text sl (some r) lang = true ↔ normalize iw text ≠ normalize iw r := by
  simp [keepLang, hA, hB, echoDrop]

/-- C7, witness for `c7_echo_filter` at a concrete kept result. -/
theorem c7_witness :
    keepLang Char.isAlphanum "Hi" none (some "Bonjour") "zh-TW" = true ↔
      normalize Char.isAlphanum "Hi" ≠ normalize Char.isAlphanum "Bonjour" :=
  c7_echo_filter Char.isAlphanum "Hi" none "Bonjour" "zh-TW" (by decide) (by decide)

/-! Claim C8. -/

/-- C8, counterexample: the secondary translator does NOT short-circuit
when the hint is merely the same language as the target by the spec's
prefix matching (its example: target `"en"` matches hint `"en-US"`).
With hint `"en-US"`, the code's test `lang.startsWith(sourceLang)` is
false for the target `"en"`, so a backend call IS issued for `"en"` and
its slot holds the backend's answer, not the original text. -/
theorem c8_counterexample :
    ¬ (∀ (env : Env) (text sl lang : String), lang ∈ targetLangs → sl ≠ "" →
        jsStartsWith sl lang = true →
        lookupStr (translateWithGoogle env text (some sl)).outputs lang = some text ∧
        lang ∉ (translateWithGoogle env text (some sl)).fetched) := by
  intro h
  have h2 := h env8 "Hi" "en-US" "en" (by decide) (by decide) (by decide)
  exact absurd h2.1 (by decide)

/-- C8, amended: with the fallback key configured and a truthy hint, the
secondary translator short-circuits a target exactly when the TARGET
language code starts with the hint (so hint `"zh"` short-circuits target
`"zh-TW"`, but hint `"en-US"` does not short-circuit target `"en"`);
for such a target the slot holds the original text and no backend call
is issued for it. -/
theorem c8_short_circuit (env : Env) (text sl lang : String)
    (hkey : env.hasGoogleKey = true) (hsl : sl ≠ "") (hpre : jsStartsWith lang sl = true)
    (hmem : lang ∈ targetLangs) :
    lookupStr (translateWithGoogle env text (some sl)).outputs lang = some text ∧
    lang ∉ (translateWithGoogle env text (some sl)).fetched := by
  have hbeq : (sl != "") = true := by simp [hsl]
  have hslot : googleSlot env text (some sl) lang = (text, none) := by
    simp [googleSlot, hbeq, hpre]
  have hside : ∀ l : String, (googleSlot env text (some sl) l).2 = none ∨
      (googleSlot env text (some sl) l).2 = some l := by
    intro l
    simp only [googleSlot]
    split
    · simp
    · unfold googleFetchSlot
      cases env.gfetch l with
      | throws => simp
      | returns t =>
        cases t with
        | none => simp
        | some s => cases hs : s == "" <;> simp [hs]
  fin_cases hmem
  · constructor
    · simp [translateWithGoogle, hkey, targetLangs, lookupStr, hslot]
    · simp only [translateWithGoogle, hkey, if_true, targetLangs, List.filterMap]
      rcases hside "en" with h1 | h1 <;> rcases hside "id" with h2 | h2 <;>
        simp [hslot, h1, h2]
  · constructor
    · simp [translateWithGoogle, hkey, targetLangs, lookupStr, hslot]
    · simp only [translateWithGoogle, hkey, if_true, targetLangs, List.filterMap]
      rcases hside "zh-TW" with h1 | h1 <;> rcases hside "id" with h2 | h2 <;>
        simp [hslot, h1, h2]
  · constructor
    · simp [translateWithGoogle, hkey, targetLangs, lookupStr, hslot]
    · simp only [translateWithGoogle, hkey, if_true, targetLangs, List.filterMap]
      rcases hside "zh-TW" with h1 | h1 <;> rcases hside "en" with h2 | h2 <;>
        simp [hslot, h1, h2]

/-- C8, witness: hint `"zh"` short-circuits the target `"zh-TW"` in
`env8`. -/
theorem c8_witness :
    lookupStr (translateWithGoogle env8 "Hi" (some "zh")).outputs "zh-TW" = some "Hi" ∧
    "zh-TW" ∉ (translateWithGoogle env8 "Hi" (some "zh")).fetched :=
  c8_short_circuit env8 "Hi" "zh" "zh-TW" rfl (by decide) (by decide) (by decide)

/-! Claim C9. -/

/-- C9: failure is signalled in-band — the filter unconditionally drops
any result string containing the substring `"(失敗)"` or `"(錯誤)"`,
whatever else the string is; a genuine translation containing one of
these substrings is therefore dropped as well. -/
theorem c9_sentinel_drop (iw : Char → Bool) (text : String) (sl : Option String) (r lang : String)
    (h : strIncludes r "(失敗)" = true ∨ strIncludes r "(錯誤)" = true) :
    keepLang iw text sl (some r) lang = false := by
  rcases h with h | h <;> simp [keepLang, failedResult, h]

/-- C9, witness: a sentence that legitimately contains `"(失敗)"` is
dropped even though it is a real translation. -/
theorem c9_witness :
    keepLang Char.isAlphanum "the plan failed" none (some "計畫(失敗)了") "zh-TW" = false :=
  c9_sentinel_drop Char.isAlphanum "the plan failed" none "計畫(失敗)了" "zh-TW"
    (Or.inl (by decide))

/-! Claim C10. -/

/-- Helper: with no source hint, the fallback-unset marker passes steps
A and B, so it is kept exactly when its normalised form differs from the
normalised input. -/
theorem keepLang_unset_iff (iw : Char → Bool) (text lang : String) :
    keepLang iw text none (some unsetMarker) lang = true ↔
      normalize iw text ≠ normalize iw unsetMarker := by
  have hA : failedResult unsetMarker = false := by decide
  simp [keepLang, hA, sameLangDrop, echoDrop]

/-- C10: with no Google key, the secondary translator fills every slot
with `"(備援未設定)"`; that marker contains neither failure sentinel, so
filter step A does not drop it; the detector also returns no hint
without the key, so under the fallback's source hint the marker is kept
— and can be sent as a reply line — exactly when its normalised form
differs from the normalised input. -/
theorem c10_unset_marker_sendable (env : Env) (iw : Char → Bool) (text lang : String)
    (hkey : env.hasGoogleKey = false) :
    (translateWithGoogle env text (detectLanguageGoogle env)).outputs =
      targetLangs.map (fun l => (l, unsetMarker)) ∧
    strIncludes unsetMarker "(失敗)" = false ∧
    strIncludes unsetMarker "(錯誤)" = false ∧
    detectLanguageGoogle env = none ∧
    (keepLang iw text (detectLanguageGoogle env) (some unsetMarker) lang = true ↔
      normalize iw text ≠ normalize iw unsetMarker) := by
  have hdet : detectLanguageGoogle env = none := by simp [detectLanguageGoogle, hkey]
  refine ⟨?_, by decide, by decide, hdet, ?_⟩
  · simp [translateWithGoogle, hkey]
  · rw [hdet]
    exact keepLang_unset_iff iw text lang

/-- C10, witness at `env4` with input `"hello"`. -/
theorem c10_witness :
    (translateWithGoogle env4 "hello" (detectLanguageGoogle env4)).outputs =
      targetLangs.map (fun l => (l, unsetMarker)) ∧
    strIncludes unsetMarker "(失敗)" = false ∧
    strIncludes unsetMarker "(錯誤)" = false ∧
    detectLanguageGoogle env4 = none ∧
    (keepLang Char.isAlphanum "hello" (detectLanguageGoogle env4) (some unsetMarker) "en" = true ↔
      normalize Char.isAlphanum "hello" ≠ normalize Char.isAlphanum unsetMarker) :=
  c10_unset_marker_sendable env4 Char.isAlphanum "hello" "en" rfl

end LineTranslate
